import Mathlib

/-!
Verification of `chart_1_gpa_attendance.py` (MAXEfficency/DAVICA2).

The script loads a CSV of student records into a dataframe, drops rows with a
missing GPA, ATTENDANCE or NATIONALITY_STATUS, derives a GPA category column
with `pd.cut`, builds a styled scatter chart, overlays a Pearson-correlation
annotation, shows the chart, and writes it to a fixed HTML path and a fixed
PNG path, printing progress and "insight" lines to stdout along the way.

The shallow embedding below models:
* a dataframe row as a record of optional fields (missing cell = `none`);
* numeric cells as `ℚ` (exact arithmetic in place of IEEE doubles);
* the Pearson coefficient as a real number, `none` standing for pandas
  returning NaN when a variance term vanishes (pandas `Series.corr` never
  raises; with fewer than `min_periods` observations or zero variance it
  yields NaN);
* the filesystem as a map from path to file content, writes overwriting;
* the observable effect sequence of a run as a list of effects.
-/

/-- One row of `cleaned_data/master_dataset.csv` as consumed by the script.
Each consumed column is optional: `none` models a missing (NaN) cell. -/
structure Row where
  studentId : Option String
  period : Option String
  gpa : Option ℚ
  attendance : Option ℚ
  nationality : Option String
  selfStudy : Option ℚ
deriving DecidableEq, Repr

/-- `df.dropna(subset=['GPA', 'ATTENDANCE', 'NATIONALITY_STATUS'])` keeps a
row exactly when these three cells are all present. -/
def rowComplete (r : Row) : Bool :=
  r.gpa.isSome && r.attendance.isSome && r.nationality.isSome

/-- `df_chart1`: the filtered dataframe (line 23 of the script). -/
def filterRows (df : List Row) : List Row :=
  df.filter rowComplete

/-- `pd.cut(df_chart1['GPA'], bins=[0, 2.5, 3.5, 5.0], labels=[...])`
(lines 26-30).  `pd.cut` with default `right=True` bins into the left-open,
right-closed intervals (0, 2.5], (2.5, 3.5], (3.5, 5.0]; a value outside
every bin gets NaN, modelled as `none`. -/
def gpaCategory (g : ℚ) : Option String :=
  if 0 < g ∧ g ≤ 5/2 then some "At Risk (<2.5)"
  else if 5/2 < g ∧ g ≤ 7/2 then some "Satisfactory (2.5-3.5)"
  else if 7/2 < g ∧ g ≤ 5 then some "Excellent (>3.5)"
  else none

/-- `df_chart1` together with its derived `GPA_CATEGORY` column: each
filtered row paired with the category of its GPA cell. -/
def chartData (df : List Row) : List (Row × Option String) :=
  (filterRows df).map (fun r => (r, r.gpa.bind gpaCategory))

/-- The multiset of `NATIONALITY_STATUS` values whose frequencies
`value_counts()` reports on line 33: the nationality cells of the filtered
rows. -/
def breakdownData (df : List Row) : List String :=
  (filterRows df).filterMap (fun r => r.nationality)

/-- Sample complete row used as a concrete witness input. -/
def rowG2 : Row :=
  ⟨some "S1", some "T1", some 2, some 80, some "SG Citizen", some 5⟩

/-- Complete row whose GPA is exactly 0: outside every `pd.cut` bin. -/
def rowGap : Row :=
  ⟨some "S2", some "T1", some 0, some 80, some "SG Citizen", some 5⟩

/-- C1: the derived GPA_CATEGORY column buckets each filtered row's GPA with
the `pd.cut` edges [0, 2.5, 3.5, 5.0]: GPA 2.0 ↦ "At Risk (<2.5)",
3.0 ↦ "Satisfactory (2.5-3.5)", 4.0 ↦ "Excellent (>3.5)", and the boundary
values 2.5 and 3.5 follow the half-open (left-open, right-closed) interval
semantics of the binning edges, landing in "At Risk (<2.5)" and
"Satisfactory (2.5-3.5)" respectively. -/
theorem gpa_category_buckets (df : List Row) (r : Row) (cat : Option String)
    (hmem : (r, cat) ∈ chartData df) :
    (r.gpa = some 2 → cat = some "At Risk (<2.5)") ∧
    (r.gpa = some 3 → cat = some "Satisfactory (2.5-3.5)") ∧
    (r.gpa = some 4 → cat = some "Excellent (>3.5)") ∧
    (r.gpa = some (5/2) → cat = some "At Risk (<2.5)") ∧
    (r.gpa = some (7/2) → cat = some "Satisfactory (2.5-3.5)") := by
  rcases List.mem_map.mp hmem with ⟨t, -, ht⟩
  obtain ⟨rfl, rfl⟩ := Prod.mk.injEq .. ▸ ht
  refine ⟨?_, ?_, ?_, ?_, ?_⟩ <;> intro hg <;> rw [hg] <;>
    simp [Option.bind, gpaCategory] <;> norm_num

/-- Witness for C1: a concrete one-row dataframe with GPA 2.0 whose chart
row is categorised "At Risk (<2.5)". -/
theorem gpa_category_buckets_witness :
    (rowG2, some "At Risk (<2.5)") ∈ chartData [rowG2] ∧
    some "At Risk (<2.5)" = some "At Risk (<2.5)" := by
  have hmem : (rowG2, some "At Risk (<2.5)") ∈ chartData [rowG2] := by
    simp only [chartData, filterRows, List.filter, rowComplete, rowG2]
    norm_num [gpaCategory]
  exact ⟨hmem, (gpa_category_buckets [rowG2] rowG2 (some "At Risk (<2.5)") hmem).1 rfl⟩

/-- C2: the filtered table holds exactly the input rows with GPA, ATTENDANCE
and NATIONALITY_STATUS all present (rows missing only other fields pass
through unchanged), and the nationality breakdown counts only such rows. -/
theorem filter_complete_rows (df : List Row) (r : Row) (s : String) :
    (r ∈ filterRows df ↔
      r ∈ df ∧ r.gpa.isSome ∧ r.attendance.isSome ∧ r.nationality.isSome) ∧
    (breakdownData df).count s =
      (df.filter (fun t => rowComplete t && t.nationality == some s)).length := by
  constructor
  · simp [filterRows, List.mem_filter, rowComplete, and_assoc]
  · induction df with
    | nil => rfl
    | cons h t ih =>
      by_cases hc : rowComplete h
      · rcases hnt0 : h.nationality with _ | nt
        · exfalso
          rw [rowComplete, hnt0] at hc
          simp at hc
        have hnt : h.nationality = some nt := hnt0
        by_cases hs : nt = s
        · subst hs
          simp [breakdownData, filterRows, hc, hnt, List.count_cons] at ih ⊢
          omega
        · simp [breakdownData, filterRows, hc, hnt, List.count_cons, hs] at ih ⊢
          exact ih
      · simp [breakdownData, filterRows, hc] at ih ⊢
        exact ih

/-- C10: a filtered row whose GPA is ≤ 0 or > 5 falls outside every
`pd.cut` bin: its GPA_CATEGORY is `none`, not one of the three labels, yet
the row stays in the filtered table and in the chart data, so the three
buckets do not cover all non-missing GPA values. -/
theorem gpa_category_gap (df : List Row) (r : Row) (g : ℚ)
    (hr : r ∈ filterRows df) (hg : r.gpa = some g) (hout : g ≤ 0 ∨ 5 < g) :
    gpaCategory g = none ∧ (r, (none : Option String)) ∈ chartData df := by
  have h1 : ¬ (0 < g ∧ g ≤ 5/2) := by
    rintro ⟨ha, hb⟩; rcases hout with h | h <;> linarith
  have h2 : ¬ (5/2 < g ∧ g ≤ 7/2) := by
    rintro ⟨ha, hb⟩; rcases hout with h | h <;> linarith
  have h3 : ¬ (7/2 < g ∧ g ≤ 5) := by
    rintro ⟨ha, hb⟩; rcases hout with h | h <;> linarith
  have hcat : gpaCategory g = none := by
    simp [gpaCategory, h1, h2, h3]
  refine ⟨hcat, ?_⟩
  have hmem : (r, r.gpa.bind gpaCategory) ∈ chartData df :=
    List.mem_map.mpr ⟨r, hr, rfl⟩
  rw [hg] at hmem
  simpa [hcat] using hmem

/-- Witness for C10: the one-row dataframe whose GPA is exactly 0 (excluded
by the left-open first bin) keeps its row but gets category `none`. -/
theorem gpa_category_gap_witness :
    gpaCategory 0 = none ∧ (rowGap, (none : Option String)) ∈ chartData [rowGap] :=
  gpa_category_gap [rowGap] rowGap 0 (by decide) rfl (Or.inl (by norm_num))

/-- The GPA column of a dataframe (present cells, in row order). -/
def gpas (d : List Row) : List ℚ :=
  d.filterMap (fun r => r.gpa)

/-- The ATTENDANCE column of a dataframe (present cells, in row order). -/
def atts (d : List Row) : List ℚ :=
  d.filterMap (fun r => r.attendance)

/-- Sum of squares of a column. -/
def sumSq (xs : List ℚ) : ℚ :=
  (xs.map (fun a => a * a)).sum

/-- Sum of pairwise products of two columns. -/
def sumProd (xs ys : List ℚ) : ℚ :=
  ((xs.zip ys).map (fun p => p.1 * p.2)).sum

/-- n·Σx² − (Σx)², the n-scaled centred sum of squares of a column. -/
def centeredSS (xs : List ℚ) : ℚ :=
  (xs.length : ℚ) * sumSq xs - xs.sum * xs.sum

/-- n·Σxy − Σx·Σy, the n-scaled centred sum of products of two columns. -/
def centeredSP (xs ys : List ℚ) : ℚ :=
  (xs.length : ℚ) * sumProd xs ys - xs.sum * ys.sum

/-- Pearson correlation of two columns as pandas `Series.corr` computes it:
(n·Σxy − Σx·Σy) / (√(n·Σx² − (Σx)²)·√(n·Σy² − (Σy)²)).  When either centred
sum of squares vanishes (in particular on an empty column) pandas divides
zero by zero and yields NaN without raising; that NaN is modelled `none`. -/
noncomputable def corrOpt (xs ys : List ℚ) : Option ℝ :=
  if centeredSS xs = 0 ∨ centeredSS ys = 0 then none
  else some ((centeredSP xs ys : ℝ) /
    (Real.sqrt (centeredSS xs) * Real.sqrt (centeredSS ys)))

/-- `correlation = df_chart1['GPA'].corr(df_chart1['ATTENDANCE'])`
(line 144): Pearson correlation of GPA and attendance over the filtered
rows. -/
noncomputable def correlation (df : List Row) : Option ℝ :=
  corrOpt (gpas (filterRows df)) (atts (filterRows df))

/-- `"Strong" if abs(correlation) > 0.5 else "Moderate"` (line 148).  With a
NaN correlation (`none`) the Python comparison `abs(nan) > 0.5` is False, so
the else branch "Moderate" is taken. -/
noncomputable def annotationLabel (r : Option ℝ) : String :=
  match r with
  | none => "Moderate"
  | some v => if 1/2 < |v| then "Strong" else "Moderate"

/-- The annotation text of line 148.  `num` stands for the decimal rendering
of the coefficient produced by the `:.3f` format (digit formatting of an
IEEE double is outside the embedding; no claim depends on it). -/
noncomputable def annotationText (num : String) (r : Option ℝ) : String :=
  "<b>Correlation: " ++ num ++ "</b><br>" ++ annotationLabel r ++
    " positive relationship"

/-- C3: for every computed correlation value, the annotation text carries the
label "Strong" when |r| > 0.5 and "Moderate" otherwise, and always ends in
" positive relationship" — the directionality word is hard-coded regardless
of the sign of r. -/
theorem annotation_label_threshold (num : String) (r : Option ℝ) (v : ℝ)
    (hr : r = some v) :
    (1/2 < |v| → annotationLabel r = "Strong") ∧
    (¬ 1/2 < |v| → annotationLabel r = "Moderate") ∧
    annotationText num r =
      ("<b>Correlation: " ++ num ++ "</b><br>" ++ annotationLabel r) ++
        " positive relationship" := by
  subst hr
  refine ⟨fun h => ?_, fun h => ?_, rfl⟩
  · rw [annotationLabel.eq_def]
    simp only [if_pos h]
  · rw [annotationLabel.eq_def]
    simp only [if_neg h]

/-- Witness for C3: at r = −0.9 the label is "Strong" (and the text still
says "positive" although the coefficient is negative). -/
theorem annotation_label_threshold_witness :
    (annotationLabel (some (-9/10)) = "Strong") ∧
    annotationText "-0.900" (some (-9/10)) =
      ("<b>Correlation: " ++ "-0.900" ++ "</b><br>" ++
        annotationLabel (some (-9/10))) ++ " positive relationship" := by
  have h := annotation_label_threshold "-0.900" (some (-9/10)) (-9/10) rfl
  exact ⟨h.1 (by rw [abs_of_neg] <;> norm_num), h.2.2⟩

/-- The spec's perfectly linear sample: attendance 50 + 10·i and
GPA 2.0 + 0.1·i for i = 0..9, every row complete. -/
def sampleLinear : List Row :=
  [⟨some "S0", some "T1", some 2,       some 50,  some "SG Citizen", some 10⟩,
   ⟨some "S1", some "T1", some (21/10), some 60,  some "SG Citizen", some 10⟩,
   ⟨some "S2", some "T1", some (11/5),  some 70,  some "SG Citizen", some 10⟩,
   ⟨some "S3", some "T1", some (23/10), some 80,  some "SG PR",      some 10⟩,
   ⟨some "S4", some "T1", some (12/5),  some 90,  some "SG PR",      some 10⟩,
   ⟨some "S5", some "T1", some (5/2),   some 100, some "SG PR",      some 10⟩,
   ⟨some "S6", some "T1", some (13/5),  some 110, some "Foreigner",  some 10⟩,
   ⟨some "S7", some "T1", some (27/10), some 120, some "Foreigner",  some 10⟩,
   ⟨some "S8", some "T1", some (14/5),  some 130, some "Foreigner",  some 10⟩,
   ⟨some "S9", some "T1", some (29/10), some 140, some "Foreigner",  some 10⟩]

/-- C4: on the spec's perfectly linear dataset (attendance = 50 + 10·i,
GPA = 2.0 + 0.1·i for i = 0..9) the filter keeps every row, the Pearson
correlation of GPA and attendance over the filtered rows is exactly 1, and
the annotation reads "Strong positive relationship". -/
theorem correlation_linear_sample :
    filterRows sampleLinear = sampleLinear ∧
    correlation sampleLinear = some 1 ∧
    annotationLabel (correlation sampleLinear) = "Strong" ∧
    ∀ num, annotationText num (correlation sampleLinear) =
      ("<b>Correlation: " ++ num ++ "</b><br>") ++
        "Strong positive relationship" := by
  have hfil : filterRows sampleLinear = sampleLinear := by
    simp [filterRows, sampleLinear, rowComplete]
  have hg : gpas (filterRows sampleLinear) =
      [2, 21/10, 11/5, 23/10, 12/5, 5/2, 13/5, 27/10, 14/5, 29/10] := by
    rw [hfil]
    simp [gpas, sampleLinear]
  have ha : atts (filterRows sampleLinear) =
      [50, 60, 70, 80, 90, 100, 110, 120, 130, 140] := by
    rw [hfil]
    simp [atts, sampleLinear]
  have hx : centeredSS (gpas (filterRows sampleLinear)) = 33/4 := by
    rw [hg]
    norm_num [centeredSS, sumSq]
  have hy : centeredSS (atts (filterRows sampleLinear)) = 82500 := by
    rw [ha]
    norm_num [centeredSS, sumSq]
  have hp : centeredSP (gpas (filterRows sampleLinear))
      (atts (filterRows sampleLinear)) = 825 := by
    rw [hg, ha]
    norm_num [centeredSP, sumProd, List.zip]
  have hsq : Real.sqrt ((33/4 : ℚ) : ℝ) * Real.sqrt ((82500 : ℚ) : ℝ) = 825 := by
    rw [← Real.sqrt_mul (by positivity)]
    have h680 : ((33/4 : ℚ) : ℝ) * ((82500 : ℚ) : ℝ) = 825 ^ 2 := by norm_num
    rw [h680, Real.sqrt_sq (by norm_num)]
  have hcorr : correlation sampleLinear = some 1 := by
    simp only [correlation, corrOpt]
    rw [if_neg (by rw [hx, hy]; norm_num), hx, hy, hp, hsq]
    norm_num
  have hlab : annotationLabel (correlation sampleLinear) = "Strong" := by
    rw [hcorr]
    simp only [annotationLabel]
    rw [if_pos (by norm_num)]
  refine ⟨hfil, hcorr, hlab, fun num => ?_⟩
  rw [annotationText, hlab, String.append_assoc _ "Strong"]
  congr 1

/-- Layout constants the script sets with `update_layout` / `update_xaxes` /
`update_yaxes` (lines 107-137). -/
structure ChartLayout where
  height : ℕ
  width : ℕ
  xRange : ℚ × ℚ
  yRange : ℚ × ℚ
deriving DecidableEq, Repr

/-- The figure as far as the claims observe it: the plotted
(attendance, GPA, nationality) rows, the fixed layout, and the correlation
shown in the annotation. -/
structure Chart where
  points : List (ℚ × ℚ × String)
  layout : ChartLayout
  corr : Option ℝ

/-- The rows `px.scatter` plots: x = ATTENDANCE, y = GPA,
color = NATIONALITY_STATUS, over the filtered dataframe (lines 39-43). -/
def chartPoints (df : List Row) : List (ℚ × ℚ × String) :=
  (filterRows df).filterMap (fun r =>
    match r.attendance, r.gpa, r.nationality with
    | some a, some g, some nt => some (a, g, nt)
    | _, _, _ => none)

/-- The figure the script builds: data-dependent points and correlation,
hard-coded layout (height 600, width 1000, x-range [45, 105],
y-range [1.5, 4.2]). -/
noncomputable def buildChart (df : List Row) : Chart :=
  ⟨chartPoints df, ⟨600, 1000, (45, 105), (3/2, 21/5)⟩, correlation df⟩

/-- Complete row whose attendance (30%) lies outside the fixed x-range. -/
def rowClip : Row :=
  ⟨some "S4", some "T1", some 2, some 30, some "SG Citizen", some 5⟩

/-- C6: the chart dimensions (height 600, width 1000) and the axis ranges
(attendance [45, 105], GPA [1.5, 4.2]) are the same constants for every
input dataset; a dataset outside those ranges (attendance 30) is still
plotted at its out-of-range coordinate, hence silently clipped by the fixed
window. -/
theorem chart_layout_fixed (df : List Row) :
    (buildChart df).layout.height = 600 ∧
    (buildChart df).layout.width = 1000 ∧
    (buildChart df).layout.xRange = (45, 105) ∧
    (buildChart df).layout.yRange = (3/2, 21/5) ∧
    ((30 : ℚ), (2 : ℚ), "SG Citizen") ∈ (buildChart [rowClip]).points ∧
    ¬ ((45 : ℚ) ≤ 30 ∧ (30 : ℚ) ≤ 105) := by
  refine ⟨rfl, rfl, rfl, rfl, ?_, by norm_num⟩
  simp [buildChart, chartPoints, filterRows, rowComplete, rowClip]

/-- Content written at an output path: the chart rendered as HTML, or as a
PNG at an explicit resolution. -/
inductive FileContent
  | html (chart : Chart)
  | png (chart : Chart) (width height scale : ℕ)

/-- The fixed HTML output path (line 167). -/
def htmlPath : String := "charts/chart_1_gpa_attendance.html"

/-- The fixed PNG output path (line 170). -/
def pngPath : String := "charts/chart_1_gpa_attendance.png"

/-- A filesystem: a map from path to the content stored there. -/
def FS : Type := String → Option FileContent

/-- One file write: replaces whatever was at the path (plotly `write_html` /
`write_image` truncate and rewrite; they never append). -/
def writeFileAt (fs : FS) (p : String) (c : FileContent) : FS :=
  fun q => if q = p then some c else fs q

/-- The export of lines 167-170: `fig.write_html(htmlPath)` then
`fig.write_image(pngPath, width=1200, height=700, scale=2)`. -/
noncomputable def exportRun (df : List Row) (fs : FS) : FS :=
  writeFileAt (writeFileAt fs htmlPath (.html (buildChart df)))
    pngPath (.png (buildChart df) 1200 700 2)

/-- C7: running the export twice with identical input equals running it
once; each of the two fixed paths ends up holding the freshly rendered
chart whatever the filesystem held before (overwrite, never append, no
prior-existence check), and no other path is touched. -/
theorem export_idempotent (df : List Row) (fs : FS) :
    exportRun df (exportRun df fs) = exportRun df fs ∧
    exportRun df fs htmlPath = some (.html (buildChart df)) ∧
    exportRun df fs pngPath = some (.png (buildChart df) 1200 700 2) ∧
    ∀ p, p ≠ htmlPath → p ≠ pngPath → exportRun df fs p = fs p := by
  have hne : htmlPath ≠ pngPath := by decide
  refine ⟨?_, ?_, ?_, ?_⟩
  · funext q
    simp only [exportRun, writeFileAt]
    split_ifs <;> rfl
  · simp [exportRun, writeFileAt, hne]
  · simp [exportRun, writeFileAt]
  · intro p hh hp
    simp only [exportRun, writeFileAt, if_neg hp, if_neg hh]

/-- Witness for C7: on an empty filesystem the export leaves an untouched
third path empty. -/
theorem export_idempotent_witness :
    exportRun [] (fun _ => none) "charts/other.txt" = none :=
  (export_idempotent [] (fun _ => none)).2.2.2 "charts/other.txt"
    (by decide) (by decide)

/-- One observable effect of a run, in program order. -/
inductive Effect
  | printRowCount (n : ℕ)
  | printBreakdown (vals : List String)
  | figShow
  | writeHtml (path : String)
  | writeImage (path : String) (width height scale : ℕ)
  | print (s : String)
  | printCorrInsight (r : Option ℝ)

/-- The stdout lines of the load step (lines 32-33): the filtered row count,
then `value_counts()` of NATIONALITY_STATUS over the filtered rows. -/
def loadPrints (df : List Row) : List Effect :=
  [.printRowCount (filterRows df).length,
   .printBreakdown (breakdownData df)]

/-- The display-and-save step (lines 164-170): `fig.show()`, then
`fig.write_html`, then `fig.write_image(..., width=1200, height=700,
scale=2)`. -/
def exportEffects : List Effect :=
  [.figShow,
   .writeHtml htmlPath,
   .writeImage pngPath 1200 700 2]

/-- The closing stdout lines (lines 172-187): the success banner, the two
saved paths, and the three "insight" blocks; only the `r = ...` line of
insight 1 interpolates a computed value, insights 2 and 3 are fixed text. -/
noncomputable def summaryPrints (df : List Row) : List Effect :=
  [.print "\n✅ Chart 1 created successfully!",
   .print "Files saved:",
   .print "  - charts/chart_1_gpa_attendance.html",
   .print "  - charts/chart_1_gpa_attendance.png",
   .print "\n📊 KEY INSIGHTS FOR POWERPOINT:",
   .print "1. POSITIVE CORRELATION: Higher attendance strongly correlates with better GPA",
   .printCorrInsight (correlation df),
   .print "\n2. NATIONALITY PATTERNS: [Analyze the plot - do certain groups cluster?",
   .print "   Look for: Do foreigners have different attendance patterns? Better/worse GPA?]",
   .print "\n3. AT-RISK IDENTIFICATION: Students with <75% attendance tend to have GPA <3.0",
   .print "   Recommendation: Flag students with low attendance for early intervention"]

/-- The full effect sequence of one run on input `df`. -/
noncomputable def scriptTrace (df : List Row) : List Effect :=
  loadPrints df ++ exportEffects ++ summaryPrints df

/-- Effects that are not stdout prints: viewer and file exports. -/
def isExportEffect : Effect → Bool
  | .figShow => true
  | .writeHtml _ => true
  | .writeImage _ _ _ _ => true
  | _ => false

/-- C8: on every run the non-print effects happen in the order: open the
interactive viewer, write the HTML file, write the PNG at the explicit
width 1200, height 700, scale 2 — a resolution larger than the 1000 × 600
interactive view. -/
theorem export_effect_order (df : List Row) :
    (scriptTrace df).filter isExportEffect =
      [.figShow, .writeHtml htmlPath, .writeImage pngPath 1200 700 2] ∧
    (buildChart df).layout.width < 1200 ∧
    (buildChart df).layout.height < 700 := by
  refine ⟨?_, by norm_num [buildChart], by norm_num [buildChart]⟩
  simp [scriptTrace, loadPrints, exportEffects, summaryPrints, isExportEffect]

/-- C9: every run prints the filtered row count and the nationality
frequency data first, and ends with the three insight blocks, of which only
insight 1 interpolates the computed correlation; the closing placeholder
lines (insights 2 and 3) are the same fixed strings for every input. -/
theorem console_output_contract (df : List Row) :
    (scriptTrace df).take 2 =
      [.printRowCount (filterRows df).length,
       .printBreakdown (breakdownData df)] ∧
    (scriptTrace df).drop 5 =
      [.print "\n✅ Chart 1 created successfully!",
       .print "Files saved:",
       .print "  - charts/chart_1_gpa_attendance.html",
       .print "  - charts/chart_1_gpa_attendance.png",
       .print "\n📊 KEY INSIGHTS FOR POWERPOINT:",
       .print "1. POSITIVE CORRELATION: Higher attendance strongly correlates with better GPA",
       .printCorrInsight (correlation df),
       .print "\n2. NATIONALITY PATTERNS: [Analyze the plot - do certain groups cluster?",
       .print "   Look for: Do foreigners have different attendance patterns? Better/worse GPA?]",
       .print "\n3. AT-RISK IDENTIFICATION: Students with <75% attendance tend to have GPA <3.0",
       .print "   Recommendation: Flag students with low attendance for early intervention"] ∧
    ∀ df2, (scriptTrace df).drop 12 = (scriptTrace df2).drop 12 := by
  refine ⟨?_, ?_, fun df2 => ?_⟩ <;>
    simp [scriptTrace, loadPrints, exportEffects, summaryPrints]

/-- C5 counterexample: on a dataset that is empty after filtering the run is
not fatal. The correlation is undefined (pandas NaN, modelled `none`), yet
every effect after the correlation computation still happens: the viewer
opens, both files are written, and the final insight lines are printed, with
the undefined coefficient interpolated into insight 1. -/
theorem empty_filter_run_completes :
    correlation [] = none ∧
    scriptTrace [] =
      [.printRowCount 0,
       .printBreakdown [],
       .figShow,
       .writeHtml htmlPath,
       .writeImage pngPath 1200 700 2,
       .print "\n✅ Chart 1 created successfully!",
       .print "Files saved:",
       .print "  - charts/chart_1_gpa_attendance.html",
       .print "  - charts/chart_1_gpa_attendance.png",
       .print "\n📊 KEY INSIGHTS FOR POWERPOINT:",
       .print "1. POSITIVE CORRELATION: Higher attendance strongly correlates with better GPA",
       .printCorrInsight none,
       .print "\n2. NATIONALITY PATTERNS: [Analyze the plot - do certain groups cluster?",
       .print "   Look for: Do foreigners have different attendance patterns? Better/worse GPA?]",
       .print "\n3. AT-RISK IDENTIFICATION: Students with <75% attendance tend to have GPA <3.0",
       .print "   Recommendation: Flag students with low attendance for early intervention"] := by
  have hc : correlation [] = none := by
    simp [correlation, corrOpt, filterRows, gpas, atts, centeredSS, sumSq]
  refine ⟨hc, ?_⟩
  simp [scriptTrace, loadPrints, exportEffects, summaryPrints, breakdownData,
    filterRows, hc]

/-- C5 (amended): when the dataset is empty after filtering, the correlation
is undefined — pandas `Series.corr` yields NaN rather than raising — and the
script continues to completion, labelling the annotation "Moderate". -/
theorem empty_filter_correlation_undefined (df : List Row)
    (h : filterRows df = []) :
    correlation df = none ∧
    annotationLabel (correlation df) = "Moderate" ∧
    (scriptTrace df).drop 2 = (scriptTrace []).drop 2 := by
  have hc : correlation df = none := by
    simp [correlation, h, corrOpt, gpas, atts, centeredSS, sumSq]
  have hc0 : correlation [] = none := by
    simp [correlation, corrOpt, filterRows, gpas, atts, centeredSS, sumSq]
  refine ⟨hc, by rw [hc]; rfl, ?_⟩
  simp [scriptTrace, loadPrints, exportEffects, summaryPrints, hc, hc0]

/-- Witness for C5 (amended): the literally empty dataset. -/
theorem empty_filter_correlation_undefined_witness :
    correlation [] = none ∧
    annotationLabel (correlation []) = "Moderate" ∧
    (scriptTrace []).drop 2 = (scriptTrace []).drop 2 :=
  empty_filter_correlation_undefined [] rfl
